import Mathlib

/-!
Verification development for the Diagram Synthesis Pipeline of the
`atoms-tech/atoms.tech` repository (source files
`src/fetch_req_diagramType.py` and `src/python_fastapi/fetch_req_diagramType.py`).

Python strings are modelled as `List Char`.  Pure helper functions of the
source (`clean_mermaid_code`, `convertToJson`, `sanitize_candidate`, the
`MERMAID_TYPE_MAP` lookup inside `generate_mermaid_with_gemini`) are embedded
as Lean functions of the same names.  The external pieces of behaviour are
explicit parameters: the generation capability is a function from the prompt
string to an outcome (`GenOutcome`), and the prompt-template file read is an
`Option (List Char)` (`none` models the `open` call raising).  `raise`d
exceptions become `Except` error values (`HTTPExc` for FastAPI
`HTTPException`s, carrying status code and detail).

All strings appearing in the claims are ASCII, and `str.lower` is embedded in
its ASCII fragment (`pyLower`); `str.strip`, `str.splitlines` and
`str.split('\n')` are embedded with their full Python character sets.
-/

/-- Coerce a Lean string literal to the `List Char` model of Python strings. -/
def pstr (s : String) : List Char := s.data

deriving instance DecidableEq for Except

/-- The set of characters stripped by Python `str.strip()` / matched by
`str.isspace()`: ASCII whitespace `0x09`-`0x0D` and `0x20`, the C0
separators FS/GS/RS/US (`0x1C`-`0x1F`), NEL, NBSP and the Unicode space
separators — exactly the codepoints for which CPython's `isspace` holds. -/
def pyIsSpace (c : Char) : Bool :=
  c.toNat = 9 || c.toNat = 10 || c.toNat = 11 || c.toNat = 12 || c.toNat = 13 ||
  c.toNat = 28 || c.toNat = 29 || c.toNat = 30 || c.toNat = 31 || c.toNat = 32 ||
  c.toNat = 133 || c.toNat = 160 || c.toNat = 5760 ||
  (8192 ≤ c.toNat && c.toNat ≤ 8202) || c.toNat = 8232 || c.toNat = 8233 ||
  c.toNat = 8239 || c.toNat = 8287 || c.toNat = 12288

/-- Python `s.strip()`: drop leading and trailing whitespace characters. -/
def pyStrip (l : List Char) : List Char :=
  ((l.dropWhile pyIsSpace).reverse.dropWhile pyIsSpace).reverse

/-- ASCII fragment of Python `s.lower()` (every string handled by the claims
is ASCII): map A-Z to a-z, leave all other characters unchanged. -/
def pyLower (l : List Char) : List Char :=
  l.map (fun c => if 65 ≤ c.toNat ∧ c.toNat ≤ 90 then Char.ofNat (c.toNat + 32) else c)

/-- Python `s.startswith(p)` (first argument the string, second the candidate
leading piece). -/
def pyStartswith : List Char → List Char → Bool
  | _, [] => true
  | [], _ :: _ => false
  | c :: cs, p :: ps => c = p && pyStartswith cs ps

/-- Python `s.endswith(p)`. -/
def pyEndswith (l p : List Char) : Bool :=
  pyStartswith l.reverse p.reverse

/-- Python `s.split('\n')`: split on each newline character; the result is
never empty (`''.split('\n') == ['']`). -/
def splitOnNl : List Char → List (List Char)
  | [] => [[]]
  | c :: rest =>
    if c.toNat = 10 then [] :: splitOnNl rest
    else
      match splitOnNl rest with
      | [] => [[c]]
      | l :: ls => (c :: l) :: ls

/-- Line-boundary characters of Python `str.splitlines()` other than
carriage return (which pairs with a following newline). -/
def isLineBoundary (c : Char) : Bool :=
  c.toNat = 10 || c.toNat = 11 || c.toNat = 12 || c.toNat = 28 ||
  c.toNat = 29 || c.toNat = 30 || c.toNat = 133 || c.toNat = 8232 ||
  c.toNat = 8233

/-- Python `s.splitlines()`: split at line boundaries, treating `\r\n` as a
single boundary; a trailing boundary produces no trailing empty line and
`''.splitlines() == []`. -/
def pySplitlines : List Char → List (List Char)
  | [] => []
  | c :: rest =>
    if c.toNat = 13 then
      match rest with
      | [] => [[]]
      | d :: rest2 =>
        if d.toNat = 10 then [] :: pySplitlines rest2
        else [] :: pySplitlines (d :: rest2)
    else if isLineBoundary c then [] :: pySplitlines rest
    else
      match pySplitlines rest with
      | [] => [[c]]
      | l :: ls => (c :: l) :: ls

/-- Python `'\n'.join(lines)`. -/
def joinNl : List (List Char) → List Char
  | [] => []
  | [l] => l
  | l :: ls => l ++ '\n' :: joinNl ls

/-- The `MERMAID_TYPE_MAP` dict literal of `generate_mermaid_with_gemini`
(`src/fetch_req_diagramType.py`, lines 156-165), keys in source order. -/
def MERMAID_TYPE_MAP : List (List Char × List Char) :=
  [(pstr "flowchart", pstr "Flowchart"),
   (pstr "graph", pstr "Flowchart"),
   (pstr "sequence", pstr "Sequence"),
   (pstr "sequencediagram", pstr "Sequence"),
   (pstr "sequenceDiagram", pstr "Sequence"),
   (pstr "class", pstr "Class"),
   (pstr "classdiagram", pstr "Class"),
   (pstr "classDiagram", pstr "Class")]

/-- Python dict key lookup over the association-list model (keys of
`MERMAID_TYPE_MAP` are pairwise distinct, so first-match lookup agrees with
dict semantics). -/
def mapLookup (m : List (List Char × List Char)) (k : List Char) : Option (List Char) :=
  match m with
  | [] => none
  | kv :: rest => if k = kv.1 then some kv.2 else mapLookup rest k

/-- A FastAPI `HTTPException` value: status code and `detail` message. -/
structure HTTPExc where
  statusCode : Nat
  detail : List Char
deriving DecidableEq, Repr

/-- The diagram-type resolution prefix of `generate_mermaid_with_gemini`
(`src/fetch_req_diagramType.py`, lines 172-177): trim, lower-case, look the
key up in `MERMAID_TYPE_MAP`; a miss raises `HTTPException(400, ...)`. -/
def resolve_diagram_type (diagram_type : List Char) : Except HTTPExc (List Char) :=
  let normalized_type := pyStrip diagram_type
  let lookup_key := pyLower normalized_type
  match mapLookup MERMAID_TYPE_MAP lookup_key with
  | some v => Except.ok v
  | none => Except.error ⟨400, pstr "Unsupported diagram type: " ++ diagram_type⟩

/-- The `{'type': ..., 'code': ...}` dict returned by `clean_mermaid_code`. -/
structure DiagramArtifact where
  type : List Char
  code : List Char
deriving DecidableEq, Repr

/-- `clean_mermaid_code` (`src/fetch_req_diagramType.py` lines 53-74;
identical in `src/python_fastapi/fetch_req_diagramType.py` lines 27-47):
strip the text, inspect the first `'\n'`-separated line of the stripped text
(trimmed, lower-cased) and classify by its leading keyword; anything else
raises `ValueError("Invalid mermaid code")`, modelled as `Except.error` with
the exception message. -/
def clean_mermaid_code (text : List Char) : Except (List Char) DiagramArtifact :=
  let code := pyStrip text
  let start := pyLower (pyStrip ((splitOnNl code).headD []))
  if pyStartswith start (pstr "graph") || pyStartswith start (pstr "flowchart") then
    Except.ok ⟨pstr "flowchart", code⟩
  else if pyStartswith start (pstr "sequencediagram") then
    Except.ok ⟨pstr "sequenceDiagram", code⟩
  else if pyStartswith start (pstr "classdiagram") then
    Except.ok ⟨pstr "classDiagram", code⟩
  else
    Except.error (pstr "Invalid mermaid code")

/-- One hexadecimal digit character (lower-case letters), as produced by
Python `json.dumps` in `\uXXXX` escapes. -/
def hexDigitChar (n : Nat) : Char :=
  if n < 10 then Char.ofNat (48 + n) else Char.ofNat (87 + n)

/-- Four-digit hexadecimal rendering of `n < 0x10000`. -/
def hex4 (n : Nat) : List Char :=
  [hexDigitChar (n / 4096 % 16), hexDigitChar (n / 256 % 16),
   hexDigitChar (n / 16 % 16), hexDigitChar (n % 16)]

/-- Escaping of a single character by Python `json.dumps` with its default
`ensure_ascii=True`: backslash, double quote and the five short escapes; any
other character outside the printable ASCII range `0x20..0x7e` becomes
`\uXXXX` (a surrogate pair for astral characters); printable ASCII passes
through. -/
def encChar (c : Char) : List Char :=
  if c = '"' then ['\\', '"']
  else if c = '\\' then ['\\', '\\']
  else if c.toNat = 8 then ['\\', 'b']
  else if c.toNat = 9 then ['\\', 't']
  else if c.toNat = 10 then ['\\', 'n']
  else if c.toNat = 12 then ['\\', 'f']
  else if c.toNat = 13 then ['\\', 'r']
  else if c.toNat < 32 ∨ 126 < c.toNat then
    if c.toNat < 65536 then '\\' :: 'u' :: hex4 c.toNat
    else ('\\' :: 'u' :: hex4 (55296 + (c.toNat - 65536) / 1024)) ++
         ('\\' :: 'u' :: hex4 (56320 + (c.toNat - 65536) % 1024))
  else [c]

/-- JSON escaping of a whole string body (no surrounding quotes). -/
def encodeChars : List Char → List Char
  | [] => []
  | c :: cs => encChar c ++ encodeChars cs

/-- Python `json.dumps({"mermaid_syntax": s}, separators=(',', ':'))`:
the compact object with the single key and the JSON-escaped string value. -/
def jsonDumpsMermaid (s : List Char) : List Char :=
  pstr "\x7b\"mermaid_syntax\":\"" ++ encodeChars s ++ pstr "\"\x7d"

/-- `convertToJson` (`src/fetch_req_diagramType.py` lines 77-85; identical in
`src/python_fastapi/fetch_req_diagramType.py` lines 49-55): strip the code,
split into lines, strip each line, join with `'\n'` and dump as the compact
one-key JSON object. -/
def convertToJson (code : List Char) : List Char :=
  let mermaid_lines := (pySplitlines (pyStrip code)).map pyStrip
  let joined_mermaid := joinNl mermaid_lines
  jsonDumpsMermaid joined_mermaid

/-- Numeric value of one hexadecimal digit character (either case). -/
def hexVal (c : Char) : Option Nat :=
  if 48 ≤ c.toNat ∧ c.toNat ≤ 57 then some (c.toNat - 48)
  else if 97 ≤ c.toNat ∧ c.toNat ≤ 102 then some (c.toNat - 87)
  else if 65 ≤ c.toNat ∧ c.toNat ≤ 70 then some (c.toNat - 55)
  else none

/-- Numeric value of four hexadecimal digit characters. -/
def hex4Val (h1 h2 h3 h4 : Char) : Option Nat :=
  match hexVal h1, hexVal h2, hexVal h3, hexVal h4 with
  | some a, some b, some c, some d => some (((a * 16 + b) * 16 + c) * 16 + d)
  | _, _, _, _ => none

/-- Prepend a decoded character to the result of decoding the remainder. -/
def mapCons (c : Char) (o : Option (List Char × List Char)) :
    Option (List Char × List Char) :=
  o.map (fun p => (c :: p.1, p.2))

/-- Standard JSON string-body decoding (strict mode): consume characters up
to the closing quote, resolving backslash escapes, `\uXXXX` sequences and
surrogate pairs, rejecting unescaped control characters and lone surrogates.
`fuel` bounds the recursion depth; one unit is spent per decoded character,
so any `fuel` larger than the decoded length suffices. -/
def decodeAux : Nat → List Char → Option (List Char × List Char)
  | 0, _ => none
  | _ + 1, [] => none
  | fuel + 1, c :: rest =>
    if c = '"' then some ([], rest)
    else if c = '\\' then
      match rest with
      | [] => none
      | e :: rest2 =>
        if e = '"' then mapCons '"' (decodeAux fuel rest2)
        else if e = '\\' then mapCons '\\' (decodeAux fuel rest2)
        else if e = '/' then mapCons '/' (decodeAux fuel rest2)
        else if e = 'b' then mapCons (Char.ofNat 8) (decodeAux fuel rest2)
        else if e = 'f' then mapCons (Char.ofNat 12) (decodeAux fuel rest2)
        else if e = 'n' then mapCons (Char.ofNat 10) (decodeAux fuel rest2)
        else if e = 'r' then mapCons (Char.ofNat 13) (decodeAux fuel rest2)
        else if e = 't' then mapCons (Char.ofNat 9) (decodeAux fuel rest2)
        else if e = 'u' then
          match rest2 with
          | h1 :: h2 :: h3 :: h4 :: rest3 =>
            match hex4Val h1 h2 h3 h4 with
            | none => none
            | some n =>
              if 55296 ≤ n ∧ n ≤ 56319 then
                match rest3 with
                | b2 :: u2 :: k1 :: k2 :: k3 :: k4 :: rest4 =>
                  if b2 = '\\' ∧ u2 = 'u' then
                    match hex4Val k1 k2 k3 k4 with
                    | none => none
                    | some m =>
                      if 56320 ≤ m ∧ m ≤ 57343 then
                        mapCons (Char.ofNat (65536 + (n - 55296) * 1024 + (m - 56320)))
                          (decodeAux fuel rest4)
                      else none
                  else none
                | _ => none
              else if 56320 ≤ n ∧ n ≤ 57343 then none
              else mapCons (Char.ofNat n) (decodeAux fuel rest3)
          | _ => none
        else none
    else if c.toNat < 32 then none
    else mapCons c (decodeAux fuel rest)

/-- Decode a JSON string literal found at the head of the input: an opening
quote, a body, a closing quote; returns the decoded body and the remaining
input. -/
def decodeJsonString (l : List Char) : Option (List Char × List Char) :=
  match l with
  | [] => none
  | c :: t => if c = '"' then decodeAux (t.length + 1) t else none

/-- JSON-decode the serializer's output and extract the `mermaid_syntax`
field: parse the compact one-key object produced by `jsonDumpsMermaid`. -/
def decodeEnvelope (j : List Char) : Option (List Char) :=
  let pre := pstr "\x7b\"mermaid_syntax\":"
  if pyStartswith j pre then
    match decodeJsonString (j.drop pre.length) with
    | some (s, rest) => if rest = pstr "\x7d" then some s else none
    | none => none
  else none

/-- ASCII letters, as matched by the regex class `[a-zA-Z]`. -/
def asciiAlpha (c : Char) : Bool :=
  (65 ≤ c.toNat && c.toNat ≤ 90) || (97 ≤ c.toNat && c.toNat ≤ 122)

/-- The substitution `re.sub(r'^```[a-zA-Z]*\n?', '', s)`: if the string
begins with three backticks, remove them together with the following run of
ASCII letters and at most one following newline. -/
def stripLeadFence (s : List Char) : List Char :=
  if pyStartswith s (pstr "```") then
    let afterTag := (s.drop 3).dropWhile asciiAlpha
    match afterTag with
    | c :: rest => if c.toNat = 10 then rest else afterTag
    | [] => []
  else s

/-- The substitution `re.sub(r'\n?```$', '', s)` on a string with no trailing
newline (`sanitize_candidate` applies it to already-stripped text, so `$`
coincides with the end of the string): if the string ends with three
backticks, remove them together with at most one directly preceding
newline. -/
def stripTrailFence (s : List Char) : List Char :=
  if pyEndswith s (pstr "```") then
    let beforeTicks := s.take (s.length - 3)
    if pyEndswith beforeTicks (pstr "\n") then beforeTicks.take (beforeTicks.length - 1)
    else beforeTicks
  else s

/-- `sanitize_candidate` (`src/fetch_req_diagramType.py` lines 162-167):
strip, remove a leading fence delimiter with optional language tag, remove a
trailing fence delimiter, strip again.  In the source this helper is defined
but its invocation on the model output is commented out (line 196). -/
def sanitize_candidate (candidate : List Char) : List Char :=
  let cleaned := pyStrip candidate
  let cleaned := stripLeadFence cleaned
  let cleaned := stripTrailFence cleaned
  pyStrip cleaned

/-- Outcome of one call of the external generation capability
(`model.generate_content(full_prompt)` followed by the `response.text`
access): it either raises an exception with some message or returns a text
(the `response.text` value, with `None` folded into the empty string, which
the `if not response.text` test treats identically). -/
inductive GenOutcome where
  | raises (msg : List Char)
  | returns (text : List Char)

/-- A Python exception escaping a pipeline stage: a FastAPI `HTTPException`,
or any other exception (e.g. the `OSError` of a failed `open`) with its
message. -/
inductive PyErr where
  | http (e : HTTPExc)
  | other (msg : List Char)
deriving DecidableEq

/-- The prompt construction of `generate_mermaid_with_gemini`
(`src/fetch_req_diagramType.py` lines 181-183): `full_prompt = file.read()`.
The requirement text, the raw diagram type and the resolved kind are all in
scope at this point but none is substituted into the prompt; the value sent
to the model is exactly the template file's content. -/
def build_full_prompt (template requirement diagram_type gemini_diagram_type : List Char) :
    List Char :=
  template

/-- `generate_mermaid_with_gemini` (`src/fetch_req_diagramType.py` lines
170-212).  `promptFile` is the content of `prompt_Gemini_Test.txt` (`none`
models `open` raising, which happens outside the inner `try` and therefore
escapes as a non-HTTP exception).  `genCap` maps the prompt actually sent to
the capability's outcome.  The inner `except Exception` clause catches the
`HTTPException`s raised inside the `try` block as well and re-raises them as
`HTTPException(502, "Gemini API error: " + str(exc))`, where `str` of a
FastAPI `HTTPException` is `"<status>: <detail>"`; the wrapped details below
spell out that composition. -/
def generate_mermaid_with_gemini (promptFile : Option (List Char))
    (genCap : List Char → GenOutcome)
    (requirement diagram_type : List Char) : Except PyErr (List Char) :=
  let normalized_type := pyStrip diagram_type
  let lookup_key := pyLower normalized_type
  match mapLookup MERMAID_TYPE_MAP lookup_key with
  | none => Except.error (PyErr.http ⟨400, pstr "Unsupported diagram type: " ++ diagram_type⟩)
  | some gemini_diagram_type =>
    match promptFile with
    | none => Except.error (PyErr.other (pstr "could not open prompt_Gemini_Test.txt"))
    | some template =>
      let full_prompt := build_full_prompt template requirement diagram_type gemini_diagram_type
      match genCap full_prompt with
      | GenOutcome.raises m =>
        Except.error (PyErr.http ⟨502, pstr "Gemini API error: " ++ m⟩)
      | GenOutcome.returns t =>
        if t = [] then
          Except.error (PyErr.http
            ⟨502, pstr "Gemini API error: 502: Gemini API returned empty response"⟩)
        else
          let first_line := pyLower (pyStrip ((pySplitlines t).headD []))
          if pyStartswith first_line (pstr "graph") ||
             pyStartswith first_line (pstr "flowchart") ||
             pyStartswith first_line (pstr "sequencediagram") ||
             pyStartswith first_line (pstr "classdiagram") then
            Except.ok t
          else
            Except.error (PyErr.http
              ⟨502, pstr "Gemini API error: 502: Gemini API did not return valid Mermaid syntax"⟩)

/-- The request body of `POST /api/fetch_req_diagramType`. -/
structure DiagramRequest where
  requirement : List Char
  diagram_type : List Char
deriving DecidableEq, Repr

/-- The module-level dict `fetched_data = {}` shared by all requests
(`src/fetch_req_diagramType.py` line 50).  Its two fixed keys are modelled as
fields; every handler run overwrites both before any read, so the initial
"missing key" state never surfaces. -/
structure FetchedData where
  requirement : List Char
  diagram_type : List Char
deriving DecidableEq, Repr

/-- The success response dict built by `receive_diagram`. -/
structure Envelope where
  status : List Char
  requirement : List Char
  diagram_type : List Char
  detectedType : List Char
  cleanCode : List Char
  jsonCode : List Char
deriving DecidableEq, Repr

/-- The synchronous start of `receive_diagram` (`src/fetch_req_diagramType.py`
lines 88-95 and the argument reads at lines 215-218): store both inputs into
the shared `fetched_data` dict and read them back as the arguments of the
`generate_mermaid_with_gemini` call.  Everything up to the `await` of that
call runs without a suspension point, so it is one atomic segment. -/
def receive_diagram_phase1 (input : DiagramRequest) (st : FetchedData) :
    FetchedData × (List Char × List Char) :=
  let st' : FetchedData := ⟨input.requirement, input.diagram_type⟩
  (st', (st'.requirement, st'.diagram_type))

/-- The continuation of `receive_diagram` after the `await`
(`src/fetch_req_diagramType.py` lines 215-245): run the generation (with the
arguments captured before the suspension), classify, serialize, and build the
response — whose `requirement` and `diagram_type` entries are read from the
shared `fetched_data` dict at response-construction time, i.e. from the state
`st` current after the suspension.  The outer exception clauses map a raised
`HTTPException` to itself, a `ValueError` to `HTTPException(502, str(exc))`
and any other exception to `HTTPException(500, "Unexpected error occurred")`. -/
def receive_diagram_phase2 (promptFile : Option (List Char))
    (genCap : List Char → GenOutcome) (args : List Char × List Char)
    (st : FetchedData) : Except HTTPExc Envelope :=
  match generate_mermaid_with_gemini promptFile genCap args.1 args.2 with
  | Except.error (PyErr.http e) => Except.error e
  | Except.error (PyErr.other _) =>
    Except.error ⟨500, pstr "Unexpected error occurred"⟩
  | Except.ok mermaid =>
    match clean_mermaid_code mermaid with
    | Except.error msg => Except.error ⟨502, msg⟩
    | Except.ok result =>
      Except.ok ⟨pstr "success", st.requirement, st.diagram_type,
        result.type, result.code, convertToJson result.code⟩

/-- `receive_diagram` (`src/fetch_req_diagramType.py` lines 87-245) processed
without interleaving: phase 1 then phase 2 on the state phase 1 produced. -/
def receive_diagram (promptFile : Option (List Char))
    (genCap : List Char → GenOutcome) (input : DiagramRequest)
    (st : FetchedData) : FetchedData × Except HTTPExc Envelope :=
  let p := receive_diagram_phase1 input st
  (p.1, receive_diagram_phase2 promptFile genCap p.2 p.1)

/-- Two concurrent `receive_diagram` calls interleaved at the `await`
suspension point: request 1 runs its synchronous start, request 2 runs its
synchronous start (overwriting the shared dict), then both continuations run
against the resulting shared state. -/
def interleaved_run (promptFile : Option (List Char))
    (genCap1 genCap2 : List Char → GenOutcome) (r1 r2 : DiagramRequest)
    (st : FetchedData) : Except HTTPExc Envelope × Except HTTPExc Envelope :=
  let p1 := receive_diagram_phase1 r1 st
  let p2 := receive_diagram_phase1 r2 p1.1
  (receive_diagram_phase2 promptFile genCap1 p1.2 p2.1,
   receive_diagram_phase2 promptFile genCap2 p2.2 p2.1)

/-- The first non-blank (`'\n'`-separated) line of a text: the first line
that is not whitespace-only. -/
def firstNonBlankLine (s : List Char) : Option (List Char) :=
  (splitOnNl s).find? (fun l => !(l.all pyIsSpace))

/-- The classification decision of `clean_mermaid_code`: the detected type on
success, `none` when it raises `ValueError`. -/
def classOf (text : List Char) : Option (List Char) :=
  match clean_mermaid_code text with
  | Except.ok a => some a.type
  | Except.error _ => none

theorem hexVal_hexDigitChar : ∀ n < 16, hexVal (hexDigitChar n) = some n := by decide

theorem char_eq_ofNat (c : Char) (n : Nat) (h : c.toNat = n) : c = Char.ofNat n := by
  subst h; exact (Char.ofNat_toNat c).symm

theorem hex4Val_hex4 (n : Nat) (h : n < 65536) :
    hex4Val (hexDigitChar (n / 4096 % 16)) (hexDigitChar (n / 256 % 16))
      (hexDigitChar (n / 16 % 16)) (hexDigitChar (n % 16)) = some n := by
  unfold hex4Val
  rw [hexVal_hexDigitChar _ (Nat.mod_lt _ (by norm_num)),
      hexVal_hexDigitChar _ (Nat.mod_lt _ (by norm_num)),
      hexVal_hexDigitChar _ (Nat.mod_lt _ (by norm_num)),
      hexVal_hexDigitChar _ (Nat.mod_lt _ (by norm_num))]
  show some (((n / 4096 % 16 * 16 + n / 256 % 16) * 16 + n / 16 % 16) * 16 + n % 16) = some n
  have e : ((n / 4096 % 16 * 16 + n / 256 % 16) * 16 + n / 16 % 16) * 16 + n % 16 = n := by
    omega
  rw [e]

theorem charValid_nat (c : Char) :
    c.toNat < 55296 ∨ (57343 < c.toNat ∧ c.toNat < 1114112) := by
  have h := c.valid
  rcases h with h | h
  · left; exact h
  · right; exact ⟨h.1, h.2⟩

/-- Decoding inverts the escaping of one character with a plain (non
surrogate) `\uXXXX` escape. -/
theorem decodeAux_u_plain (fuel : Nat) (d1 d2 d3 d4 : Char) (t : List Char) (n : Nat)
    (h : hex4Val d1 d2 d3 d4 = some n)
    (hno1 : ¬(55296 ≤ n ∧ n ≤ 56319)) (hno2 : ¬(56320 ≤ n ∧ n ≤ 57343)) :
    decodeAux (fuel + 1) ('\\' :: 'u' :: d1 :: d2 :: d3 :: d4 :: t) =
      mapCons (Char.ofNat n) (decodeAux fuel t) := by
  simp only [decodeAux, h]
  simp [hno1, hno2]

/-- Decoding inverts the escaping of one astral character encoded as a
surrogate pair. -/
theorem decodeAux_u_pair (fuel : Nat) (d1 d2 d3 d4 k1 k2 k3 k4 : Char) (t : List Char)
    (n m : Nat) (hn : hex4Val d1 d2 d3 d4 = some n) (hm : hex4Val k1 k2 k3 k4 = some m)
    (hs1 : 55296 ≤ n ∧ n ≤ 56319) (hs2 : 56320 ≤ m ∧ m ≤ 57343) :
    decodeAux (fuel + 1)
      ('\\' :: 'u' :: d1 :: d2 :: d3 :: d4 :: '\\' :: 'u' :: k1 :: k2 :: k3 :: k4 :: t) =
      mapCons (Char.ofNat (65536 + (n - 55296) * 1024 + (m - 56320))) (decodeAux fuel t) := by
  simp only [decodeAux, hn]
  simp [hs1, hs2, hm]

/-- One decoding step inverts the `json.dumps` escaping of one character,
whatever follows, spending exactly one unit of fuel. -/
theorem decodeAux_encChar (c : Char) (t : List Char) (fuel : Nat) :
    decodeAux (fuel + 1) (encChar c ++ t) = mapCons c (decodeAux fuel t) := by
  by_cases h1 : c = '"'
  · subst h1; rfl
  by_cases h2 : c = '\\'
  · subst h2; rfl
  by_cases h3 : c.toNat = 8
  · rw [char_eq_ofNat c 8 h3]; rfl
  by_cases h4 : c.toNat = 9
  · rw [char_eq_ofNat c 9 h4]; rfl
  by_cases h5 : c.toNat = 10
  · rw [char_eq_ofNat c 10 h5]; rfl
  by_cases h6 : c.toNat = 12
  · rw [char_eq_ofNat c 12 h6]; rfl
  by_cases h7 : c.toNat = 13
  · rw [char_eq_ofNat c 13 h7]; rfl
  have henc0 : encChar c =
      (if c.toNat < 32 ∨ 126 < c.toNat then
        if c.toNat < 65536 then '\\' :: 'u' :: hex4 c.toNat
        else ('\\' :: 'u' :: hex4 (55296 + (c.toNat - 65536) / 1024)) ++
             ('\\' :: 'u' :: hex4 (56320 + (c.toNat - 65536) % 1024))
      else [c]) := by
    unfold encChar
    rw [if_neg h1, if_neg h2, if_neg h3, if_neg h4, if_neg h5, if_neg h6, if_neg h7]
  have hvalid := charValid_nat c
  by_cases h8 : c.toNat < 32 ∨ 126 < c.toNat
  · rw [henc0, if_pos h8]
    by_cases h9 : c.toNat < 65536
    · rw [if_pos h9]
      have key := decodeAux_u_plain fuel (hexDigitChar (c.toNat / 4096 % 16))
        (hexDigitChar (c.toNat / 256 % 16)) (hexDigitChar (c.toNat / 16 % 16))
        (hexDigitChar (c.toNat % 16)) t c.toNat (hex4Val_hex4 c.toNat h9)
        (by omega) (by omega)
      simp only [hex4, List.cons_append, List.nil_append]
      rw [key, Char.ofNat_toNat]
    · rw [if_neg h9]
      have key := decodeAux_u_pair fuel
        (hexDigitChar ((55296 + (c.toNat - 65536) / 1024) / 4096 % 16))
        (hexDigitChar ((55296 + (c.toNat - 65536) / 1024) / 256 % 16))
        (hexDigitChar ((55296 + (c.toNat - 65536) / 1024) / 16 % 16))
        (hexDigitChar ((55296 + (c.toNat - 65536) / 1024) % 16))
        (hexDigitChar ((56320 + (c.toNat - 65536) % 1024) / 4096 % 16))
        (hexDigitChar ((56320 + (c.toNat - 65536) % 1024) / 256 % 16))
        (hexDigitChar ((56320 + (c.toNat - 65536) % 1024) / 16 % 16))
        (hexDigitChar ((56320 + (c.toNat - 65536) % 1024) % 16)) t
        (55296 + (c.toNat - 65536) / 1024) (56320 + (c.toNat - 65536) % 1024)
        (hex4Val_hex4 _ (by omega)) (hex4Val_hex4 _ (by omega))
        (by omega) (by omega)
      simp only [hex4, List.cons_append, List.nil_append]
      rw [key]
      have hcp : 65536 + (55296 + (c.toNat - 65536) / 1024 - 55296) * 1024 +
          (56320 + (c.toNat - 65536) % 1024 - 56320) = c.toNat := by omega
      rw [hcp, Char.ofNat_toNat]
  · rw [henc0, if_neg h8]
    have h32 : ¬ c.toNat < 32 := by omega
    simp only [List.cons_append, List.nil_append, decodeAux]
    rw [if_neg h1, if_neg h2, if_neg h32]
    rfl

/-- Every character escapes to at least one character. -/
theorem encChar_length_pos (c : Char) : 1 ≤ (encChar c).length := by
  unfold encChar hex4
  repeat' split
  all_goals simp

/-- The escaped body is at least as long as the original string. -/
theorem length_le_encodeChars (s : List Char) : s.length ≤ (encodeChars s).length := by
  induction s with
  | nil => simp [encodeChars]
  | cons c cs ih =>
    simp only [encodeChars, List.length_append, List.length_cons]
    have := encChar_length_pos c
    omega

/-- With any fuel beyond the decoded length, decoding inverts escaping of the
whole string body up to the closing quote. -/
theorem decodeAux_encodeChars (s : List Char) :
    ∀ (fuel : Nat), s.length + 1 ≤ fuel → ∀ (rest : List Char),
      decodeAux fuel (encodeChars s ++ '"' :: rest) = some (s, rest) := by
  induction s with
  | nil =>
    intro fuel hfuel rest
    match fuel, hfuel with
    | fuel + 1, _ => rfl
  | cons c cs ih =>
    intro fuel hfuel rest
    match fuel, hfuel with
    | fuel + 1, hfuel =>
      have hstep := decodeAux_encChar c (encodeChars cs ++ '"' :: rest) fuel
      simp only [encodeChars, List.append_assoc] at hstep ⊢
      rw [hstep, ih fuel (by simp at hfuel; omega) rest]
      rfl

/-- JSON-decoding inverts the JSON string rendering, whatever follows the
closing quote. -/
theorem decodeJsonString_encode (s rest : List Char) :
    decodeJsonString ('"' :: encodeChars s ++ '"' :: rest) = some (s, rest) := by
  have hlen : s.length + 1 ≤ (encodeChars s ++ '"' :: rest).length + 1 := by
    have := length_le_encodeChars s
    simp [List.length_append]
    omega
  simp only [decodeJsonString, if_pos rfl]
  exact decodeAux_encodeChars s _ hlen rest

/-- A list starts with itself followed by anything. -/
theorem pyStartswith_append (p t : List Char) : pyStartswith (p ++ t) p = true := by
  induction p with
  | nil => cases t <;> rfl
  | cons c cs ih => simp [pyStartswith, ih]

/-- Decoding the compact one-key JSON object and extracting the field
inverts `jsonDumpsMermaid`. -/
theorem decodeEnvelope_jsonDumpsMermaid (s : List Char) :
    decodeEnvelope (jsonDumpsMermaid s) = some s := by
  have hpre : jsonDumpsMermaid s =
      pstr "\x7b\"mermaid_syntax\":" ++ ('"' :: encodeChars s ++ '"' :: pstr "\x7d") := by
    simp [jsonDumpsMermaid, pstr]
  rw [decodeEnvelope, hpre, pyStartswith_append]
  simp only [if_pos rfl, List.drop_left]
  rw [decodeJsonString_encode]
  simp

/-- The original string is its stripped core surrounded by whitespace runs. -/
theorem pyStrip_decomposition (l : List Char) :
    ∃ pre post, l = pre ++ pyStrip l ++ post ∧
      pre.all pyIsSpace = true ∧ post.all pyIsSpace = true := by
  refine ⟨l.takeWhile pyIsSpace,
    ((l.dropWhile pyIsSpace).reverse.takeWhile pyIsSpace).reverse, ?_, ?_, ?_⟩
  · conv_lhs => rw [← List.takeWhile_append_dropWhile (p := pyIsSpace) (l := l)]
    rw [List.append_assoc]
    congr 1
    conv_lhs => rw [← List.reverse_reverse (l.dropWhile pyIsSpace),
      ← List.takeWhile_append_dropWhile (p := pyIsSpace)
        (l := (l.dropWhile pyIsSpace).reverse)]
    rw [List.reverse_append]
    rfl
  · rw [List.all_eq_true]
    intro x hx
    exact List.mem_takeWhile_imp hx
  · rw [List.all_eq_true]
    intro x hx
    rw [List.mem_reverse] at hx
    exact List.mem_takeWhile_imp hx

/-- Stripping a whitespace-only string yields the empty string. -/
theorem pyStrip_of_all_space (l : List Char) (h : l.all pyIsSpace = true) :
    pyStrip l = [] := by
  rw [List.all_eq_true] at h
  have h1 : l.dropWhile pyIsSpace = [] := by
    rw [List.dropWhile_eq_nil_iff]
    exact h
  simp [pyStrip, h1]

/-- A string whose stripped-and-lowered form starts with a nonempty keyword
is not whitespace-only. -/
theorem not_all_space_of_pyStartswith (l : List Char) (c : Char) (cs : List Char)
    (h : pyStartswith (pyLower (pyStrip l)) (c :: cs) = true) :
    l.all pyIsSpace = false := by
  by_contra hcon
  rw [Bool.not_eq_false] at hcon
  rw [pyStrip_of_all_space l hcon] at h
  simp [pyLower, pyStartswith] at h

/-- `split('\n')` never yields an empty list of lines. -/
theorem splitOnNl_ne_nil (l : List Char) : splitOnNl l ≠ [] := by
  induction l with
  | nil => simp [splitOnNl]
  | cons c rest ih =>
    simp only [splitOnNl]
    split
    · simp
    · split
      · simp_all
      · simp

/-- Every line produced by `splitlines` of a whitespace-only string is
whitespace-only. -/
theorem pySplitlines_all_space (t : List Char) :
    t.all pyIsSpace = true → ∀ l ∈ pySplitlines t, l.all pyIsSpace = true := by
  induction t using pySplitlines.induct with
  | case1 =>
    intro _
    simp [pySplitlines]
  | case2 d h13 =>
    intro _
    simp [pySplitlines, if_pos h13]
  | case3 d h13 d1 rest2 h10 ih =>
    intro h l hl
    simp only [pySplitlines, if_pos h13, if_pos h10] at hl
    simp only [List.all_cons, Bool.and_eq_true] at h
    rcases List.mem_cons.mp hl with hl | hl
    · simp [hl]
    · exact ih h.2.2 l hl
  | case4 d h13 d1 rest2 h10 ih =>
    intro h l hl
    simp only [pySplitlines, if_pos h13, if_neg h10] at hl
    simp only [List.all_cons, Bool.and_eq_true] at h
    rcases List.mem_cons.mp hl with hl | hl
    · simp [hl]
    · exact ih (by simp [h.2.1, h.2.2]) l hl
  | case5 d rest2 h13 hb ih =>
    intro h l hl
    rw [pySplitlines.eq_def] at hl
    simp only [List.all_cons, Bool.and_eq_true] at h
    simp [h13, hb] at hl
    rcases hl with hl | hl
    · simp [hl]
    · exact ih h.2 l hl
  | case6 d rest2 h13 hb hnil ih =>
    intro h l hl
    rw [pySplitlines.eq_def] at hl
    simp [h13, hb, hnil] at hl
    simp only [List.all_cons, Bool.and_eq_true] at h
    simp [hl, h.1]
  | case7 d rest2 h13 hb l0 ls0 hcons ih =>
    intro h l hl
    rw [pySplitlines.eq_def] at hl
    simp [h13, hb, hcons] at hl
    simp only [List.all_cons, Bool.and_eq_true] at h
    rcases hl with hl | hl
    · subst hl
      have hl0 := ih h.2 l0 (by rw [hcons]; exact List.mem_cons_self _ _)
      simp [h.1, hl0]
    · exact ih h.2 l (by rw [hcons]; exact List.mem_cons_of_mem _ hl)

/-- Claim C1: diagram-type resolution trims, lower-cases and looks the result
up in the fixed mapping, so each accepted surface spelling (including the
mixed-case ones) resolves to its canonical kind; every string whose
trimmed lower-cased form misses the mapping fails with the 400
`Unsupported diagram type` HTTPException, and a successful resolution always
comes from the mapping — nothing is defaulted. -/
theorem resolver_maps_spellings_and_rejects_the_rest :
    (resolve_diagram_type (pstr "flowchart") = Except.ok (pstr "Flowchart") ∧
     resolve_diagram_type (pstr "Flowchart") = Except.ok (pstr "Flowchart") ∧
     resolve_diagram_type (pstr "graph") = Except.ok (pstr "Flowchart") ∧
     resolve_diagram_type (pstr "sequence") = Except.ok (pstr "Sequence") ∧
     resolve_diagram_type (pstr "sequencediagram") = Except.ok (pstr "Sequence") ∧
     resolve_diagram_type (pstr "sequenceDiagram") = Except.ok (pstr "Sequence") ∧
     resolve_diagram_type (pstr "class") = Except.ok (pstr "Class") ∧
     resolve_diagram_type (pstr "classdiagram") = Except.ok (pstr "Class") ∧
     resolve_diagram_type (pstr "classDiagram") = Except.ok (pstr "Class")) ∧
    (∀ s, mapLookup MERMAID_TYPE_MAP (pyLower (pyStrip s)) = none →
       resolve_diagram_type s =
         Except.error ⟨400, pstr "Unsupported diagram type: " ++ s⟩) ∧
    (∀ s v, resolve_diagram_type s = Except.ok v →
       mapLookup MERMAID_TYPE_MAP (pyLower (pyStrip s)) = some v) := by
  refine ⟨by decide, ?_, ?_⟩
  · intro s h
    simp [resolve_diagram_type, h]
  · intro s v h
    simp only [resolve_diagram_type] at h
    rcases hmk : mapLookup MERMAID_TYPE_MAP (pyLower (pyStrip s)) with _ | g
    · rw [hmk] at h
      simp at h
    · rw [hmk] at h
      simp only [Except.ok.injEq] at h
      rw [h]

/-- Witness for C1: the unmapped string `"pie"` is rejected with the 400
exception. -/
theorem resolver_maps_spellings_and_rejects_the_rest_witness :
    mapLookup MERMAID_TYPE_MAP (pyLower (pyStrip (pstr "pie"))) = none ∧
    resolve_diagram_type (pstr "pie") =
      Except.error ⟨400, pstr "Unsupported diagram type: " ++ pstr "pie"⟩ :=
  ⟨by decide, resolver_maps_spellings_and_rejects_the_rest.2.1 (pstr "pie") (by decide)⟩

/-- Claim C5 counterexample: on the input `"\na"` the serializer's decoded
output is `"a"`, while splitting the input itself into lines, trimming each
and rejoining gives `"\na"` — the round-trip law as stated in the claim fails
because `convertToJson` strips the whole text before splitting. -/
theorem serializer_roundtrip_claim_fails_on_leading_newline :
    decodeEnvelope (convertToJson (pstr "\na")) = some (pstr "a") ∧
    joinNl ((pySplitlines (pstr "\na")).map pyStrip) = pstr "\na" ∧
    pstr "a" ≠ pstr "\na" := by decide

/-- Claim C5 (amended): the serializer strips the whole text, splits into
lines, trims each line, rejoins with a newline and emits the compact JSON
object; JSON-decoding the output and extracting `mermaid_syntax` recovers
exactly that normalization, for every input, with no failure path. -/
theorem serializer_roundtrip (code : List Char) :
    decodeEnvelope (convertToJson code) =
      some (joinNl ((pySplitlines (pyStrip code)).map pyStrip)) := by
  unfold convertToJson
  exact decodeEnvelope_jsonDumpsMermaid _

/-- Claim C7: the prompt string sent to the generation capability is the
template file content alone — `full_prompt = file.read()` — so it does not
depend on the requirement text or the diagram kind, and the whole generation
call behaves identically for different requirement texts. -/
theorem prompt_ignores_request_inputs
    (template r1 r2 dt1 dt2 k1 k2 : List Char) :
    build_full_prompt template r1 dt1 k1 = build_full_prompt template r2 dt2 k2 ∧
    (∀ promptFile genCap dt,
       generate_mermaid_with_gemini promptFile genCap r1 dt =
       generate_mermaid_with_gemini promptFile genCap r2 dt) := by
  exact ⟨rfl, fun _ _ _ => rfl⟩

/-- Claim C4 counterexample: the fenced model output of the claim's example
is rejected by the deployed pipeline with the 502 invalid-syntax error
instead of being sanitized and classified as a flowchart. -/
theorem pipeline_rejects_fenced_model_output :
    (receive_diagram (some (pstr "template"))
       (fun _ => GenOutcome.returns (pstr "```mermaid\ngraph TD\nA-->B\n```"))
       ⟨pstr "req", pstr "flowchart"⟩ ⟨[], []⟩).2 =
      Except.error ⟨502,
        pstr "Gemini API error: 502: Gemini API did not return valid Mermaid syntax"⟩ := by
  decide

/-- Claim C4 (amended): `sanitize_candidate` does strip a single fenced code
block (on the claim's example it yields `graph TD\nA-->B`, which classifies
as a flowchart with the body preserved), but the sanitization call is
commented out in the pipeline, so model output wrapped in fences reaches the
validator unsanitized and is rejected with the 502 invalid-syntax error. -/
theorem sanitize_strips_fences_but_is_not_invoked :
    sanitize_candidate (pstr "```mermaid\ngraph TD\nA-->B\n```") = pstr "graph TD\nA-->B" ∧
    clean_mermaid_code (pstr "graph TD\nA-->B") =
      Except.ok ⟨pstr "flowchart", pstr "graph TD\nA-->B"⟩ ∧
    generate_mermaid_with_gemini (some (pstr "template"))
      (fun _ => GenOutcome.returns (pstr "```mermaid\ngraph TD\nA-->B\n```"))
      (pstr "req") (pstr "flowchart") =
      Except.error (PyErr.http ⟨502,
        pstr "Gemini API error: 502: Gemini API did not return valid Mermaid syntax"⟩) := by
  refine ⟨by decide, by decide, by decide⟩

/-- Claim C9: under the interleaving in which request B's synchronous start
runs while request A is suspended at the `await` of the generation call, the
shared `fetched_data` dict makes request A's response echo request B's
requirement and diagram type instead of its own. -/
theorem interleaving_crosses_request_data :
    (interleaved_run (some (pstr "template"))
        (fun _ => GenOutcome.returns (pstr "graph TD"))
        (fun _ => GenOutcome.returns (pstr "graph TD"))
        ⟨pstr "requirement A", pstr "flowchart"⟩
        ⟨pstr "requirement B", pstr "sequence"⟩ ⟨[], []⟩).1 =
      Except.ok ⟨pstr "success", pstr "requirement B", pstr "sequence",
        pstr "flowchart", pstr "graph TD", convertToJson (pstr "graph TD")⟩ ∧
    pstr "requirement A" ≠ pstr "requirement B" := by decide

/-- Claim C2 counterexample: a model output whose first non-blank line is the
valid header `graph TD` but which begins with a blank line is rejected by the
validator (which inspects `splitlines()[0]`, the literal first line) with the
fixed 502 detail — the claim asserts such a text is accepted. -/
theorem validator_rejects_leading_blank_line :
    generate_mermaid_with_gemini (some (pstr "template"))
      (fun _ => GenOutcome.returns (pstr "\ngraph TD"))
      (pstr "req") (pstr "flowchart") =
      Except.error (PyErr.http ⟨502,
        pstr "Gemini API error: 502: Gemini API did not return valid Mermaid syntax"⟩) := by
  decide

/-- Claim C2 (amended): for a supported diagram kind and a non-empty
generation result, the validator accepts exactly when the text's first line
(`splitlines()[0]` — not its first non-blank line), trimmed and lower-cased,
starts with one of the four recognized headers; on rejection it fails with
the fixed 502 detail `Gemini API error: 502: Gemini API did not return valid
Mermaid syntax`, which does not include the offending line. -/
theorem validator_decides_by_first_line (template req dt t : List Char)
    (hsup : mapLookup MERMAID_TYPE_MAP (pyLower (pyStrip dt)) ≠ none)
    (hne : t ≠ []) :
    (generate_mermaid_with_gemini (some template) (fun _ => GenOutcome.returns t) req dt =
        Except.ok t ↔
      (pyStartswith (pyLower (pyStrip ((pySplitlines t).headD []))) (pstr "graph") ||
       pyStartswith (pyLower (pyStrip ((pySplitlines t).headD []))) (pstr "flowchart") ||
       pyStartswith (pyLower (pyStrip ((pySplitlines t).headD []))) (pstr "sequencediagram") ||
       pyStartswith (pyLower (pyStrip ((pySplitlines t).headD []))) (pstr "classdiagram")) = true) ∧
    ((pyStartswith (pyLower (pyStrip ((pySplitlines t).headD []))) (pstr "graph") ||
      pyStartswith (pyLower (pyStrip ((pySplitlines t).headD []))) (pstr "flowchart") ||
      pyStartswith (pyLower (pyStrip ((pySplitlines t).headD []))) (pstr "sequencediagram") ||
      pyStartswith (pyLower (pyStrip ((pySplitlines t).headD []))) (pstr "classdiagram")) = false →
      generate_mermaid_with_gemini (some template) (fun _ => GenOutcome.returns t) req dt =
        Except.error (PyErr.http ⟨502,
          pstr "Gemini API error: 502: Gemini API did not return valid Mermaid syntax"⟩)) := by
  obtain ⟨g, hg⟩ := Option.ne_none_iff_exists'.mp hsup
  simp only [generate_mermaid_with_gemini, hg, if_neg hne]
  by_cases hb : (pyStartswith (pyLower (pyStrip ((pySplitlines t).headD []))) (pstr "graph") ||
       pyStartswith (pyLower (pyStrip ((pySplitlines t).headD []))) (pstr "flowchart") ||
       pyStartswith (pyLower (pyStrip ((pySplitlines t).headD []))) (pstr "sequencediagram") ||
       pyStartswith (pyLower (pyStrip ((pySplitlines t).headD []))) (pstr "classdiagram")) = true
  · rw [if_pos hb]
    refine ⟨⟨fun _ => hb, fun _ => rfl⟩, fun hfalse => ?_⟩
    rw [hfalse] at hb
    cases hb
  · rw [if_neg hb]
    rw [Bool.not_eq_true] at hb
    refine ⟨⟨fun h => ?_, fun h => ?_⟩, fun _ => rfl⟩
    · exact absurd h (by simp)
    · rw [h] at hb
      cases hb

/-- Witness for the amended C2: at the accepted input `graph TD` the
equivalence holds with both sides true. -/
theorem validator_decides_by_first_line_witness :
    generate_mermaid_with_gemini (some (pstr "template"))
        (fun _ => GenOutcome.returns (pstr "graph TD")) (pstr "req") (pstr "flowchart") =
      Except.ok (pstr "graph TD") :=
  (validator_decides_by_first_line (pstr "template") (pstr "req") (pstr "flowchart")
      (pstr "graph TD") (by decide) (by decide)).1.mpr (by decide)

/-- Claim C3 counterexample: a whitespace-only (but non-empty) generation
result is not reported with the empty-response cause: the `if not
response.text` test passes for `" "`, and the failure surfaces as the
invalid-syntax 502 instead. -/
theorem whitespace_result_reported_as_invalid :
    generate_mermaid_with_gemini (some (pstr "template"))
      (fun _ => GenOutcome.returns (pstr " ")) (pstr "req") (pstr "flowchart") =
      Except.error (PyErr.http ⟨502,
        pstr "Gemini API error: 502: Gemini API did not return valid Mermaid syntax"⟩) ∧
    pstr "Gemini API error: 502: Gemini API did not return valid Mermaid syntax" ≠
      pstr "Gemini API error: 502: Gemini API returned empty response" := by
  decide

/-- Claim C3 (amended): for a supported diagram kind, a generation result
that is exactly the empty string fails with the 502 empty-response cause,
while a whitespace-only non-empty result passes the emptiness test and fails
with the 502 invalid-syntax cause instead. -/
theorem empty_vs_whitespace_generation_result (template req dt : List Char)
    (hsup : mapLookup MERMAID_TYPE_MAP (pyLower (pyStrip dt)) ≠ none) :
    (generate_mermaid_with_gemini (some template) (fun _ => GenOutcome.returns []) req dt =
       Except.error (PyErr.http ⟨502,
         pstr "Gemini API error: 502: Gemini API returned empty response"⟩)) ∧
    (∀ t, t ≠ [] → t.all pyIsSpace = true →
       generate_mermaid_with_gemini (some template) (fun _ => GenOutcome.returns t) req dt =
         Except.error (PyErr.http ⟨502,
           pstr "Gemini API error: 502: Gemini API did not return valid Mermaid syntax"⟩)) := by
  obtain ⟨g, hg⟩ := Option.ne_none_iff_exists'.mp hsup
  constructor
  · simp [generate_mermaid_with_gemini, hg]
  · intro t hne hsp
    have hhead : ((pySplitlines t).headD []).all pyIsSpace = true := by
      rcases hl : pySplitlines t with _ | ⟨a, as⟩
      · simp
      · have := pySplitlines_all_space t hsp a (by rw [hl]; exact List.mem_cons_self _ _)
        simpa using this
    have hstrip : pyStrip ((pySplitlines t).headD []) = [] :=
      pyStrip_of_all_space _ hhead
    simp only [generate_mermaid_with_gemini, hg, if_neg hne]
    rw [hstrip]
    rw [if_neg (by decide)]

/-- Witness for the amended C3: both behaviours at the concrete kind
`flowchart` and the whitespace result `" "`. -/
theorem empty_vs_whitespace_generation_result_witness :
    (generate_mermaid_with_gemini (some (pstr "T")) (fun _ => GenOutcome.returns [])
       (pstr "r") (pstr "flowchart") =
       Except.error (PyErr.http ⟨502,
         pstr "Gemini API error: 502: Gemini API returned empty response"⟩)) ∧
    (generate_mermaid_with_gemini (some (pstr "T")) (fun _ => GenOutcome.returns (pstr " "))
       (pstr "r") (pstr "flowchart") =
       Except.error (PyErr.http ⟨502,
         pstr "Gemini API error: 502: Gemini API did not return valid Mermaid syntax"⟩)) :=
  ⟨(empty_vs_whitespace_generation_result (pstr "T") (pstr "r") (pstr "flowchart")
      (by decide)).1,
   (empty_vs_whitespace_generation_result (pstr "T") (pstr "r") (pstr "flowchart")
      (by decide)).2 (pstr " ") (by decide) (by decide)⟩

/-- Claim C6: every artifact `clean_mermaid_code` ever returns satisfies the
invariant: the code's first non-blank line, trimmed and lower-cased, starts
with one of the four recognized headers, and the detected type is the member
of `{flowchart, sequenceDiagram, classDiagram}` corresponding to that
header. -/
theorem diagram_artifact_invariant (text : List Char) (art : DiagramArtifact)
    (h : clean_mermaid_code text = Except.ok art) :
    ∃ l, firstNonBlankLine art.code = some l ∧
      (((pyStartswith (pyLower (pyStrip l)) (pstr "graph") ||
         pyStartswith (pyLower (pyStrip l)) (pstr "flowchart")) = true ∧
        art.type = pstr "flowchart") ∨
       (pyStartswith (pyLower (pyStrip l)) (pstr "sequencediagram") = true ∧
        art.type = pstr "sequenceDiagram") ∨
       (pyStartswith (pyLower (pyStrip l)) (pstr "classdiagram") = true ∧
        art.type = pstr "classDiagram")) := by
  simp only [clean_mermaid_code] at h
  rcases hsp : splitOnNl (pyStrip text) with _ | ⟨l0, ls0⟩
  · exact absurd hsp (splitOnNl_ne_nil _)
  rw [hsp] at h
  have hhead : (l0 :: ls0).headD [] = l0 := rfl
  rw [hhead] at h
  by_cases h1 : (pyStartswith (pyLower (pyStrip l0)) (pstr "graph") ||
      pyStartswith (pyLower (pyStrip l0)) (pstr "flowchart")) = true
  · rw [if_pos h1] at h
    simp only [Except.ok.injEq] at h
    have hns : l0.all pyIsSpace = false := by
      rcases (Bool.or_eq_true _ _).mp h1 with hh | hh
      · exact not_all_space_of_pyStartswith l0 'g' (pstr "raph") hh
      · exact not_all_space_of_pyStartswith l0 'f' (pstr "lowchart") hh
    refine ⟨l0, ?_, Or.inl ⟨h1, ?_⟩⟩
    · rw [← h, firstNonBlankLine]
      simp only [DiagramArtifact.code]
      rw [hsp]
      exact List.find?_cons_of_pos _ (by simp [hns])
    · rw [← h]
  · rw [if_neg h1] at h
    by_cases h2 : pyStartswith (pyLower (pyStrip l0)) (pstr "sequencediagram") = true
    · rw [if_pos h2] at h
      simp only [Except.ok.injEq] at h
      have hns : l0.all pyIsSpace = false :=
        not_all_space_of_pyStartswith l0 's' (pstr "equencediagram") h2
      refine ⟨l0, ?_, Or.inr (Or.inl ⟨h2, ?_⟩)⟩
      · rw [← h, firstNonBlankLine]
        simp only [DiagramArtifact.code]
        rw [hsp]
        exact List.find?_cons_of_pos _ (by simp [hns])
      · rw [← h]
    · rw [if_neg h2] at h
      by_cases h3 : pyStartswith (pyLower (pyStrip l0)) (pstr "classdiagram") = true
      · rw [if_pos h3] at h
        simp only [Except.ok.injEq] at h
        have hns : l0.all pyIsSpace = false :=
          not_all_space_of_pyStartswith l0 'c' (pstr "lassdiagram") h3
        refine ⟨l0, ?_, Or.inr (Or.inr ⟨h3, ?_⟩)⟩
        · rw [← h, firstNonBlankLine]
          simp only [DiagramArtifact.code]
          rw [hsp]
          exact List.find?_cons_of_pos _ (by simp [hns])
        · rw [← h]
      · rw [if_neg h3] at h
        cases h

/-- Witness for C6: the artifact produced from a concrete sequence-diagram
text satisfies the invariant. -/
theorem diagram_artifact_invariant_witness :
    clean_mermaid_code (pstr " sequenceDiagram\n A->>B: hi ") =
      Except.ok ⟨pstr "sequenceDiagram", pstr "sequenceDiagram\n A->>B: hi"⟩ ∧
    ∃ l, firstNonBlankLine (pstr "sequenceDiagram\n A->>B: hi") = some l ∧
      (((pyStartswith (pyLower (pyStrip l)) (pstr "graph") ||
         pyStartswith (pyLower (pyStrip l)) (pstr "flowchart")) = true ∧
        pstr "sequenceDiagram" = pstr "flowchart") ∨
       (pyStartswith (pyLower (pyStrip l)) (pstr "sequencediagram") = true ∧
        pstr "sequenceDiagram" = pstr "sequenceDiagram") ∨
       (pyStartswith (pyLower (pyStrip l)) (pstr "classdiagram") = true ∧
        pstr "sequenceDiagram" = pstr "classDiagram")) :=
  ⟨by decide,
   diagram_artifact_invariant (pstr " sequenceDiagram\n A->>B: hi ")
     ⟨pstr "sequenceDiagram", pstr "sequenceDiagram\n A->>B: hi"⟩ (by decide)⟩

/-- Claim C10: `clean_mermaid_code` either raises `ValueError` or returns an
artifact whose code is the input with only leading and trailing whitespace
removed (no fence stripping, no interior edits), and its classification
decision depends only on the first line of the stripped text. -/
theorem classifier_trims_only_and_reads_first_line (text : List Char) :
    (∀ art, clean_mermaid_code text = Except.ok art →
       art.code = pyStrip text ∧
       ∃ pre post, text = pre ++ art.code ++ post ∧
         pre.all pyIsSpace = true ∧ post.all pyIsSpace = true) ∧
    (∀ other, (splitOnNl (pyStrip text)).headD [] = (splitOnNl (pyStrip other)).headD [] →
       classOf text = classOf other) := by
  constructor
  · intro art h
    have hcode : art.code = pyStrip text := by
      simp only [clean_mermaid_code] at h
      split at h
      · cases h
        rfl
      · split at h
        · cases h
          rfl
        · split at h
          · cases h
            rfl
          · cases h
    refine ⟨hcode, ?_⟩
    obtain ⟨pre, post, hdec, hpre, hpost⟩ := pyStrip_decomposition text
    exact ⟨pre, post, by rw [hcode]; exact hdec, hpre, hpost⟩
  · intro other heq
    simp only [classOf, clean_mermaid_code]
    rw [heq]
    by_cases h1 : (pyStartswith (pyLower (pyStrip ((splitOnNl (pyStrip other)).headD [])))
        (pstr "graph") ||
        pyStartswith (pyLower (pyStrip ((splitOnNl (pyStrip other)).headD [])))
        (pstr "flowchart")) = true
    · rw [if_pos h1, if_pos h1]
    · rw [if_neg h1, if_neg h1]
      by_cases h2 : pyStartswith (pyLower (pyStrip ((splitOnNl (pyStrip other)).headD [])))
          (pstr "sequencediagram") = true
      · rw [if_pos h2, if_pos h2]
      · rw [if_neg h2, if_neg h2]
        by_cases h3 : pyStartswith (pyLower (pyStrip ((splitOnNl (pyStrip other)).headD [])))
            (pstr "classdiagram") = true
        · rw [if_pos h3, if_pos h3]
        · rw [if_neg h3, if_neg h3]

/-- Witness for C10: a concrete input with surrounding whitespace, and a
second input sharing its stripped first line. -/
theorem classifier_trims_only_and_reads_first_line_witness :
    clean_mermaid_code (pstr " graph TD\n  A-->B ") =
      Except.ok ⟨pstr "flowchart", pstr "graph TD\n  A-->B"⟩ ∧
    (pstr "flowchart" = pstr "flowchart" ∧
     ∃ pre post, pstr " graph TD\n  A-->B " =
         pre ++ pstr "graph TD\n  A-->B" ++ post ∧
       pre.all pyIsSpace = true ∧ post.all pyIsSpace = true) ∧
    ((splitOnNl (pyStrip (pstr " graph TD\n  A-->B "))).headD [] =
       (splitOnNl (pyStrip (pstr "graph TD\nC-->D"))).headD [] ∧
     classOf (pstr " graph TD\n  A-->B ") = classOf (pstr "graph TD\nC-->D")) := by
  refine ⟨by decide, ⟨by decide, ?_⟩, by decide, ?_⟩
  · have h := ((classifier_trims_only_and_reads_first_line
        (pstr " graph TD\n  A-->B ")).1
      ⟨pstr "flowchart", pstr "graph TD\n  A-->B"⟩ (by decide)).2
    simpa using h
  · exact (classifier_trims_only_and_reads_first_line (pstr " graph TD\n  A-->B ")).2
      (pstr "graph TD\nC-->D") (by decide)

